import Mathlib

/-
Verification of the Swiss ISR / QRR reference engine of
addons/l10n_ch/models/account_invoice.py.

Python strings are modelled as List Char. A record field that Python
treats as falsy (None or the empty string) is modelled as the empty
list; an absent bank account is modelled with Option.
-/

namespace L10nCh

/-- Python zfill: pads on the left with zeros to the requested width,
keeping a leading sign character in front of the padding. -/
def zfill : List Char → Nat → List Char
  | [], w => List.replicate w '0'
  | c :: rest, w =>
      if c = '+' ∨ c = '-' then
        c :: (List.replicate (w - (c :: rest).length) '0' ++ rest)
      else
        List.replicate (w - (c :: rest).length) '0' ++ (c :: rest)

/-- Python rjust with a fill character. -/
def rjust (s : List Char) (w : Nat) (c : Char) : List Char :=
  List.replicate (w - s.length) c ++ s

/-- Python replace of a single space by the empty string, used by the
reference validator. -/
def removeSpaces (s : List Char) : List Char :=
  s.filter (fun c => c != ' ')

/-- Modelled from the spec: the transition row of the recursive mod-10
table of the Swiss postal standard. The function mod10r lives in
odoo.tools.misc, which is not under src; section 4.1 of the spec fixes
the algorithm (carry starts at 0, each digit advances the carry through
the fixed table, check digit is (10 - carry) mod 10). -/
def mod10rTable : List Nat := [0, 9, 4, 6, 8, 2, 7, 1, 3, 5]

/-- Numeric value of an ASCII digit character. -/
def digitVal (c : Char) : Nat := c.toNat - 48

/-- Modelled from the spec: the running carry of the mod10r algorithm.
The spec declares non-digit input invalid; here a non-digit character
leaves the carry unchanged, and the claims only apply the carry to
digit strings. -/
def mod10rCarry : Nat → List Char → Nat
  | r, [] => r
  | r, c :: rest =>
      if c.isDigit then
        mod10rCarry (mod10rTable.getD ((digitVal c + r) % 10) 0) rest
      else
        mod10rCarry r rest

/-- Modelled from the spec: the appended mod10r check digit,
(10 - carry) mod 10, as an ASCII character. -/
def mod10rCheckDigit (s : List Char) : Char :=
  Char.ofNat (48 + (10 - mod10rCarry 0 s) % 10)

/-- Modelled from the spec: mod10r appends exactly one check digit to
its input. -/
def mod10r (s : List Char) : List Char :=
  s ++ [mod10rCheckDigit s]

/-- Display form of an ISR subscription, from _format_isr_subscription
(lines 34-40): currency code, hyphen, middle part with the leading
zeros stripped, hyphen, trailing cipher. The Python index -1 on the
last character is modelled by the final one-character slice. -/
def _format_isr_subscription (s : List Char) : List Char :=
  s.take 2 ++ '-' :: ((s.drop 2).dropLast.dropWhile (fun c => c = '0'))
    ++ '-' :: s.drop (s.length - 1)

/-- Scanline form of an ISR subscription, from
_format_isr_subscription_scanline (lines 42-44): currency code, middle
part right-justified to 6 with zeros, trailing cipher. -/
def _format_isr_subscription_scanline (s : List Char) : List Char :=
  s.take 2 ++ rjust ((s.drop 2).dropLast) 6 '0' ++ s.drop (s.length - 1)

/-- Loop of _space_isr_number (lines 142-150), written with a fuel
argument so that it is structurally recursive; each turn of the Python
while loop shortens the string by 5 characters, so a fuel equal to the
string length strictly bounds the number of turns. -/
def spaceIsrNumberAux (fuel : Nat) (s : List Char) : List Char :=
  match fuel with
  | 0 => s
  | f + 1 =>
      if s.length ≤ 5 then s
      else spaceIsrNumberAux f (s.take (s.length - 5)) ++ ' ' :: s.drop (s.length - 5)

/-- Reference display grouping from _space_isr_number (lines 142-150):
blocks of 5 taken from the right, separated by single spaces. -/
def _space_isr_number (s : List Char) : List Char :=
  spaceIsrNumberAux s.length s

/-- Loop of space_qrr_reference (lines 372-383), with the same fuel
device as spaceIsrNumberAux. -/
def spaceQrrAux (fuel : Nat) (s : List Char) : List Char :=
  match fuel with
  | 0 => []
  | f + 1 =>
      if s = [] then []
      else spaceQrrAux f (s.take (s.length - 5)) ++ s.drop (s.length - 5) ++ [' ']

/-- QRR reference grouping from space_qrr_reference (lines 372-383):
each loop turn prepends one block of 5 and a space to the accumulator,
so every block, the last one included, is followed by a space. -/
def space_qrr_reference (s : List Char) : List Char :=
  spaceQrrAux s.length s

example : _space_isr_number "123456789".data = "1234 56789".data := by decide
example : space_qrr_reference "123456789".data = "1234 56789 ".data := by decide
example : mod10r "010000394975".data = "0100003949753".data := by decide
example : _format_isr_subscription_scanline "010001628".data = "010001628".data := by decide

/-- Bank account fields read by the module. The three character fields
use the empty list for an unset value. The predicate _is_qr_iban is
defined on res.partner.bank outside this file of the source; the spec
treats it as a boolean flag supplied by the collaborator, so it is a
plain field here. -/
structure BankAccount where
  l10n_ch_isr_subscription_eur : List Char
  l10n_ch_isr_subscription_chf : List Char
  l10n_ch_postal : List Char
  qr_iban : Bool
deriving DecidableEq

/-- Invoice fields read by the module. currency_name stands for
currency_id.name, which is also the related field
l10n_ch_currency_name. amount_residual_cents models the residual
amount as a whole number of cents. -/
structure Invoice where
  invoice_partner_bank_id : Option BankAccount
  currency_name : List Char
  name : List Char
  type : List Char
  amount_residual_cents : Nat
deriving DecidableEq

/-- Scanline subscription of an invoice, from
_compute_l10n_ch_isr_subscription (lines 46-61): choose the EUR or CHF
subscription field of the bank account by invoice currency, and when
the raw value is non-empty, strip hyphens and format it for the
scanline. Any other currency, a missing bank account or an empty raw
value leave the field unset (empty). -/
def compute_isr_subscription (inv : Invoice) : List Char :=
  match inv.invoice_partner_bank_id with
  | none => []
  | some b =>
      let raw :=
        if inv.currency_name = "EUR".data then b.l10n_ch_isr_subscription_eur
        else if inv.currency_name = "CHF".data then b.l10n_ch_isr_subscription_chf
        else []
      if raw ≠ [] then
        _format_isr_subscription_scanline (raw.filter (fun c => c != '-'))
      else []

/-- ISR-B customer id hook from _get_isrb_id_number (lines 63-74): the
l10n_ch_postal field of the bank account, or the empty string. -/
def _get_isrb_id_number (inv : Invoice) : List Char :=
  match inv.invoice_partner_bank_id with
  | none => []
  | some b => b.l10n_ch_postal

/-- Guard helper of _compute_l10n_ch_isr_number, line 123: the bank
account is present and _is_qr_iban holds on it. -/
def hasQrIban (inv : Invoice) : Bool :=
  match inv.invoice_partner_bank_id with
  | none => false
  | some b => b.qr_iban

/-- Customer id part of the reference, lines 126-128: when non-empty,
the id number is zero-filled to the constant width 6. -/
def paddedIdNumber (inv : Invoice) : List Char :=
  let id_number := _get_isrb_id_number inv
  if id_number ≠ [] then zfill id_number 6 else id_number

/-- Invoice-derived digits, line 129: every non-digit character of the
invoice name is removed. -/
def invoiceRefDigits (inv : Invoice) : List Char :=
  inv.name.filter Char.isDigit

/-- Body of the reference before the check digit, lines 130-136: when
the id part plus the invoice digits exceed 26 characters, the excess
is cut from the left of the invoice digits, which are then zero-filled
to the remaining width. -/
def isr_reference_body (id_number invoice_ref : List Char) : List Char :=
  let extra := id_number.length + invoice_ref.length - 26
  let internal_ref := zfill (invoice_ref.drop extra) (26 - id_number.length)
  id_number ++ internal_ref

/-- Reference computation from _compute_l10n_ch_isr_number (lines
122-138): defined when a QR-IBAN capable account or a subscription is
present and the invoice has a name; the result appends the mod10r
check digit to the 26 character body. -/
def compute_l10n_ch_isr_number (inv : Invoice) : Option (List Char) :=
  if (hasQrIban inv = true ∨ compute_isr_subscription inv ≠ []) ∧ inv.name ≠ [] then
    some (mod10r (isr_reference_body (paddedIdNumber inv) (invoiceRefDigits inv)))
  else none

/-- Test for a run of 2 to 27 ASCII digits, the core of the pattern of
line 268. -/
def isrRefDigits (t : List Char) : Bool :=
  2 ≤ t.length && t.length ≤ 27 && t.all Char.isDigit

/-- Semantics of the Python pattern of line 268 anchored at both ends:
the dollar anchor also matches just before one final newline, so the
candidate is either a run of 2 to 27 digits or such a run followed by
a single final newline. -/
def matchIsrRefRegex (r : List Char) : Bool :=
  isrRefDigits r || (r.getLast? == some '\n' && isrRefDigits r.dropLast)

/-- Reference validator from _has_isr_ref (lines 255-270), on the
candidate string (an absent reference is the empty candidate and fails
the pattern): remove the spaces, require the pattern to match, then
compare the candidate with the mod10r of the candidate without its
last character. The function is total: a mismatch yields false. -/
def _has_isr_ref (candidate : List Char) : Bool :=
  let r := removeSpaces candidate
  if matchIsrRefRegex r then r == mod10r r.dropLast else false

/-- Modelled from the spec: float_split_str from
odoo.tools.float_utils is not under src; section 4.2 of the spec
splits the amount into the integer digit string and the fractional
part forced to 2 digits, modelled here on a whole number of cents. -/
def float_split_str (cents : Nat) : List Char × List Char :=
  ((Nat.repr (cents / 100)).data, zfill (Nat.repr (cents % 100)).data 2)

/-- Optical amount from _get_l10n_ch_isr_optical_amount (lines
158-171): 2 digit currency code, units and cents zero-filled to 10,
and the mod10r check digit. The none result models the error the
source would raise for a currency other than CHF or EUR, where the
currency code is left unset before being concatenated. -/
def _get_l10n_ch_isr_optical_amount (inv : Invoice) : Option (List Char) :=
  let currency_code : Option (List Char) :=
    if inv.currency_name = "CHF".data then some "01".data
    else if inv.currency_name = "EUR".data then some "03".data
    else none
  match currency_code with
  | none => none
  | some code =>
      let parts := float_split_str inv.amount_residual_cents
      some (mod10r (code ++ zfill (parts.1 ++ parts.2) 10))

/-- Optical line from _compute_l10n_ch_isr_optical_line (lines
222-231): empty unless the reference, the subscription and the
currency name are all non-empty, in which case the line is the amount,
a greater-than sign, the reference, a plus sign, one space, the
subscription and a final greater-than sign. The none result models the
error path of the optical amount. -/
def compute_l10n_ch_isr_optical_line (inv : Invoice) : Option (List Char) :=
  let reference := (compute_l10n_ch_isr_number inv).getD []
  let subscription := compute_isr_subscription inv
  if reference ≠ [] ∧ subscription ≠ [] ∧ inv.currency_name ≠ [] then
    match _get_l10n_ch_isr_optical_amount inv with
    | some amount =>
        some (amount ++ '>' :: reference ++ '+' :: ' ' :: subscription ++ ['>'])
    | none => none
  else some []

/-- Validity flag from _compute_l10n_ch_isr_valid (lines 237-243). -/
def compute_l10n_ch_isr_valid (inv : Invoice) : Bool :=
  decide (inv.type = "out_invoice".data) && decide (inv.name ≠ []) &&
    decide (compute_isr_subscription inv ≠ []) &&
    (decide (inv.currency_name = "EUR".data) || decide (inv.currency_name = "CHF".data))

/-- Blocker reasons collected by isr_print (lines 299-309). -/
inductive IsrError where
  | missingBankAccount
  | missingSubscription
  | notCustomerInvoice
  | wrongCurrency
  | missingName
deriving DecidableEq

/-- List of blockers built in the invalid branch of isr_print, in
source order: bank account or subscription, invoice type, currency,
name. -/
def isrPrintErrors (inv : Invoice) : List IsrError :=
  (match inv.invoice_partner_bank_id with
   | none => [IsrError.missingBankAccount]
   | some _ =>
       if compute_isr_subscription inv = [] then [IsrError.missingSubscription] else [])
  ++ (if inv.type ≠ "out_invoice".data then [IsrError.notCustomerInvoice] else [])
  ++ (if ¬ (inv.currency_name = "EUR".data ∨ inv.currency_name = "CHF".data) then
        [IsrError.wrongCurrency] else [])
  ++ (if inv.name = [] then [IsrError.missingName] else [])

/-- Outcome of the print action: the report path, the aggregated
validation failure, or the fallback raise of the mismatch branch. -/
inductive IsrPrintOutcome where
  | report
  | validation (errors : List IsrError)
  | notImplementedFallback
deriving DecidableEq

/-- Print action from isr_print (lines 291-317), paired with the value
of the sent flag after the action: on a valid invoice the flag is set
and the report returned; otherwise the flag is untouched and the
collected blockers are raised, or the fallback when none was
collected. -/
def isr_print (inv : Invoice) (sent : Bool) : IsrPrintOutcome × Bool :=
  if compute_l10n_ch_isr_valid inv = true then (IsrPrintOutcome.report, true)
  else if isrPrintErrors inv = [] then (IsrPrintOutcome.notImplementedFallback, sent)
  else (IsrPrintOutcome.validation (isrPrintErrors inv), sent)

/- Helper lemmas. -/

theorem zfill_length (s : List Char) (w : Nat) :
    (zfill s w).length = (w - s.length) + s.length := by
  cases s with
  | nil => simp [zfill]
  | cons c rest =>
      by_cases h : c = '+' ∨ c = '-'
      · simp only [zfill, if_pos h, List.length_cons, List.length_append,
          List.length_replicate]
        omega
      · simp only [zfill, if_neg h, List.length_cons, List.length_append,
          List.length_replicate]

theorem rjust_length (s : List Char) (w : Nat) (c : Char) :
    (rjust s w c).length = (w - s.length) + s.length := by
  simp [rjust]

theorem mod10r_length (s : List Char) : (mod10r s).length = s.length + 1 := by
  simp [mod10r]

theorem mod10rCheckDigit_isDigit (s : List Char) :
    (mod10rCheckDigit s).isDigit = true := by
  unfold mod10rCheckDigit
  set x := (10 - mod10rCarry 0 s) % 10 with hx
  have h10 : x < 10 := Nat.mod_lt _ (by norm_num)
  interval_cases x <;> decide

theorem mod10rCheckDigit_ne_newline (s : List Char) :
    mod10rCheckDigit s ≠ '\n' := by
  intro h
  have := mod10rCheckDigit_isDigit s
  rw [h] at this
  simp [Char.isDigit] at this

theorem filter_ne_space_eq (s : List Char) (h : ∀ c ∈ s, c ≠ ' ') :
    removeSpaces s = s := by
  unfold removeSpaces
  exact List.filter_eq_self.mpr (fun a ha => by simpa using h a ha)

theorem spaceQrrAux_nil (f : Nat) : spaceQrrAux f [] = [] := by
  cases f <;> simp [spaceQrrAux]

theorem spaceQrrAux_eq_spaceIsrNumberAux (f : Nat) :
    ∀ s : List Char, s.length ≤ f →
      spaceQrrAux f s = spaceIsrNumberAux f s ++ (if s = [] then [] else [' ']) := by
  induction f with
  | zero =>
      intro s hs
      have h : s = [] := List.eq_nil_of_length_eq_zero (Nat.le_zero.mp hs)
      subst h
      simp [spaceQrrAux, spaceIsrNumberAux]
  | succ f ih =>
      intro s hs
      by_cases hnil : s = []
      · subst hnil
        simp [spaceQrrAux, spaceIsrNumberAux]
      · simp only [spaceQrrAux, spaceIsrNumberAux, if_neg hnil]
        by_cases h5 : s.length ≤ 5
        · have h0 : s.length - 5 = 0 := by omega
          rw [h0]
          simp [spaceQrrAux_nil, if_pos h5, if_neg hnil]
        · have hlen : (s.take (s.length - 5)).length ≤ f := by
            simp only [List.length_take]
            omega
          have hne : s.take (s.length - 5) ≠ [] := by
            intro h
            have := congrArg List.length h
            simp only [List.length_take, List.length_nil] at this
            omega
          rw [ih _ hlen, if_neg hne, if_neg h5]
          simp [List.append_assoc]

theorem removeSpaces_spaceIsrNumberAux (f : Nat) :
    ∀ s : List Char, s.length ≤ f → (∀ c ∈ s, c ≠ ' ') →
      removeSpaces (spaceIsrNumberAux f s) = s := by
  induction f with
  | zero =>
      intro s hs h
      have hnil : s = [] := List.eq_nil_of_length_eq_zero (Nat.le_zero.mp hs)
      subst hnil
      simp [spaceIsrNumberAux, removeSpaces]
  | succ f ih =>
      intro s hs h
      simp only [spaceIsrNumberAux]
      by_cases h5 : s.length ≤ 5
      · rw [if_pos h5]
        exact filter_ne_space_eq s h
      · rw [if_neg h5]
        unfold removeSpaces
        rw [List.filter_append]
        have hcons : List.filter (fun c => c != ' ') (' ' :: s.drop (s.length - 5))
            = List.filter (fun c => c != ' ') (s.drop (s.length - 5)) := by
          simp [List.filter_cons]
        rw [hcons]
        have htake : removeSpaces (spaceIsrNumberAux f (s.take (s.length - 5)))
            = s.take (s.length - 5) := by
          refine ih _ ?_ ?_
          · simp only [List.length_take]
            omega
          · exact fun c hc => h c (List.take_subset _ _ hc)
        unfold removeSpaces at htake
        rw [htake]
        have hdrop : removeSpaces (s.drop (s.length - 5)) = s.drop (s.length - 5) :=
          filter_ne_space_eq _ (fun c hc => h c (List.drop_subset _ _ hc))
        unfold removeSpaces at hdrop
        rw [hdrop, List.take_append_drop]

theorem mod10r_dropLast (s : List Char) : (mod10r s).dropLast = s := by
  simp [mod10r]

theorem mod10r_getLast? (s : List Char) :
    (mod10r s).getLast? = some (mod10rCheckDigit s) := by
  simp [mod10r]

theorem hasIsrRefCore (r : List Char) :
    (if matchIsrRefRegex r then r == mod10r r.dropLast else false) = true ↔
      (2 ≤ r.length ∧ r.length ≤ 27 ∧ (∀ c ∈ r, c.isDigit = true) ∧
        r = mod10r r.dropLast) := by
  constructor
  · intro h
    by_cases hm : matchIsrRefRegex r = true
    · rw [if_pos hm] at h
      have heq : r = mod10r r.dropLast := eq_of_beq h
      simp only [matchIsrRefRegex, Bool.or_eq_true, Bool.and_eq_true, isrRefDigits,
        decide_eq_true_eq, List.all_eq_true, beq_iff_eq] at hm
      rcases hm with ⟨⟨h2, h27⟩, hdig⟩ | ⟨hlast, -⟩
      · exact ⟨h2, h27, hdig, heq⟩
      · exfalso
        rw [heq, mod10r_getLast?] at hlast
        exact mod10rCheckDigit_ne_newline r.dropLast (Option.some.inj hlast)
    · rw [if_neg hm] at h
      exact absurd h (by simp)
  · rintro ⟨h2, h27, hdig, heq⟩
    have hm : matchIsrRefRegex r = true := by
      simp only [matchIsrRefRegex, Bool.or_eq_true, Bool.and_eq_true, isrRefDigits,
        decide_eq_true_eq, List.all_eq_true, beq_iff_eq]
      exact Or.inl ⟨⟨h2, h27⟩, hdig⟩
    rw [if_pos hm]
    exact beq_of_eq heq

/- Claim theorems. -/

/-- Claim C9 counterexample: the display form of the subscription 010001628
is not 01-1628-8; the middle part of 010001628 is 000162, whose
leading zeros strip to 162. -/
theorem subscription_display_claim_false :
    _format_isr_subscription "010001628".data ≠ "01-1628-8".data := by decide

/-- Claim C9 amended: formatting the subscription 010001628 yields the
display form 01-162-8, the currency code, a hyphen, the middle digits
with the leading zeros stripped, a hyphen and the trailing cipher,
matching the example of the source docstring. -/
theorem subscription_display_010001628 :
    _format_isr_subscription "010001628".data = "01-162-8".data := by decide

/-- Claim C7 counterexample: a raw subscription of 10 digits, length at
least 3, produces a 10 character scanline, because the middle part is
longer than 6 and rjust does not truncate. -/
theorem scanline_width_claim_false :
    ("0112345678".data.all Char.isDigit) = true ∧
    3 ≤ "0112345678".data.length ∧
    (_format_isr_subscription_scanline "0112345678".data).length = 10 := by decide

/-- Claim C7 amended: for every raw subscription of length 3 to 9, the
scanline form is exactly 9 characters: 2 currency characters, the
middle part zero-filled to 6, and the trailing cipher. -/
theorem scanline_width_9 (s : List Char) (h3 : 3 ≤ s.length) (h9 : s.length ≤ 9) :
    (_format_isr_subscription_scanline s).length = 9 := by
  simp only [_format_isr_subscription_scanline, rjust, List.length_append,
    List.length_take, List.length_drop, List.length_dropLast, List.length_replicate]
  omega

/-- Claim C7 witness: the scanline of the 9 digit subscription 010001628
has width 9. -/
theorem scanline_width_9_witness :
    (_format_isr_subscription_scanline "010001628".data).length = 9 :=
  scanline_width_9 "010001628".data (by decide) (by decide)

/-- Claim C4 counterexample: the two grouping entry points are not byte
identical; on the input 1 the QRR grouping yields the block followed
by a trailing space while the ISR grouping yields the block alone. -/
theorem qrr_grouping_claim_false :
    space_qrr_reference "1".data ≠ _space_isr_number "1".data := by decide

/-- Claim C4 amended: on every non-empty input the QRR grouping returns the
output of the ISR grouping followed by exactly one trailing space, and
both return the empty string on the empty input. -/
theorem space_qrr_eq_space_isr_append_space (s : List Char) :
    space_qrr_reference s
      = _space_isr_number s ++ (if s = [] then [] else [' ']) := by
  unfold space_qrr_reference _space_isr_number
  exact spaceQrrAux_eq_spaceIsrNumberAux s.length s le_rfl

/-- Claim C5 counterexample: grouping the one-space string and removing all
space characters yields the empty string, not the original string. -/
theorem grouping_roundtrip_claim_false :
    removeSpaces (_space_isr_number " ".data) ≠ " ".data := by decide

/-- Claim C5 amended: for every string without a space character, grouping
it into blocks of 5 and removing all space characters returns the
string unchanged. -/
theorem grouping_roundtrip_of_no_space (s : List Char) (h : ∀ c ∈ s, c ≠ ' ') :
    removeSpaces (_space_isr_number s) = s := by
  unfold _space_isr_number
  exact removeSpaces_spaceIsrNumberAux s.length s le_rfl h

/-- Claim C5 witness: the round trip on the digit string 123456789. -/
theorem grouping_roundtrip_witness :
    removeSpaces (_space_isr_number "123456789".data) = "123456789".data :=
  grouping_roundtrip_of_no_space "123456789".data (by decide)

/-- Claim C2 confirmed: the reference validator accepts a candidate exactly
when, after removing all spaces, the candidate is a run of 2 to 27
digits equal to the mod10r of the candidate without its last
character; the validator is a total boolean function, so a format
mismatch yields false and no error. -/
theorem has_isr_ref_iff (candidate : List Char) :
    _has_isr_ref candidate = true ↔
      (2 ≤ (removeSpaces candidate).length ∧
        (removeSpaces candidate).length ≤ 27 ∧
        (∀ c ∈ removeSpaces candidate, c.isDigit = true) ∧
        removeSpaces candidate
          = mod10r (removeSpaces candidate).dropLast) := by
  unfold _has_isr_ref
  exact hasIsrRefCore (removeSpaces candidate)

/-- Claim C3 confirmed: for every digit string of length 1 to 26, appending
the mod10r check digit yields a candidate the validator accepts. -/
theorem append_checksum_valid (d : List Char) (h1 : 1 ≤ d.length)
    (h26 : d.length ≤ 26) (hd : ∀ c ∈ d, c.isDigit = true) :
    _has_isr_ref (mod10r d) = true := by
  have hmem : ∀ c ∈ mod10r d, c ∈ d ∨ c = mod10rCheckDigit d := by
    intro c hc
    simpa [mod10r] using hc
  have hdigits : ∀ c ∈ mod10r d, c.isDigit = true := by
    intro c hc
    rcases hmem c hc with h | h
    · exact hd c h
    · rw [h]
      exact mod10rCheckDigit_isDigit d
  have hnospace : ∀ c ∈ mod10r d, c ≠ ' ' := by
    intro c hc he
    have := hdigits c hc
    rw [he] at this
    simp [Char.isDigit] at this
  show (if matchIsrRefRegex (removeSpaces (mod10r d)) = true then
      removeSpaces (mod10r d) == mod10r (removeSpaces (mod10r d)).dropLast
    else false) = true
  rw [filter_ne_space_eq (mod10r d) hnospace]
  have hm : matchIsrRefRegex (mod10r d) = true := by
    simp only [matchIsrRefRegex, Bool.or_eq_true, Bool.and_eq_true, isrRefDigits,
      decide_eq_true_eq, List.all_eq_true, beq_iff_eq]
    exact Or.inl ⟨⟨by rw [mod10r_length]; omega, by rw [mod10r_length]; omega⟩, hdigits⟩
  rw [if_pos hm, mod10r_dropLast]
  exact beq_self_eq_true (mod10r d)

/-- Claim C3 witness: the digit string 12345 with its check digit 7 is a
valid reference. -/
theorem append_checksum_valid_witness :
    _has_isr_ref (mod10r "12345".data) = true :=
  append_checksum_valid "12345".data (by decide) (by decide) (by decide)

/-- Length of the reference body: 26 as long as the id part does not
exceed 26 characters. -/
theorem isr_reference_body_length (id_number invoice_ref : List Char)
    (hid : id_number.length ≤ 26) :
    (isr_reference_body id_number invoice_ref).length = 26 := by
  unfold isr_reference_body
  simp only [List.length_append, zfill_length, List.length_drop]
  omega

/-- Bank account of the counterexamples: a 27 character value stored
in the postal field, which the source never bounds, and a QR-IBAN
capable account so that the reference is computed. -/
def longPostalBank : BankAccount :=
  { l10n_ch_isr_subscription_eur := []
    l10n_ch_isr_subscription_chf := []
    l10n_ch_postal := List.replicate 27 '1'
    qr_iban := true }

/-- Invoice of the C1 counterexample. -/
def longPostalInvoice : Invoice :=
  { invoice_partner_bank_id := some longPostalBank
    currency_name := "CHF".data
    name := "1".data
    type := "out_invoice".data
    amount_residual_cents := 0 }

/-- Realistic bank account used by the witnesses: an ISR-B customer id
in the postal field and a CHF subscription with hyphens. -/
def chBank : BankAccount :=
  { l10n_ch_isr_subscription_eur := []
    l10n_ch_isr_subscription_chf := "01-162-8".data
    l10n_ch_postal := "150001".data
    qr_iban := false }

/-- Realistic customer invoice used by the witnesses. -/
def chInvoice : Invoice :=
  { invoice_partner_bank_id := some chBank
    currency_name := "CHF".data
    name := "INV/2021/0001".data
    type := "out_invoice".data
    amount_residual_cents := 394975 }

/-- Claim C1 counterexample: on an invoice whose bank account stores 27
characters in the postal field, the reference is computed and has 28
characters, not 27. -/
theorem isr_number_width_claim_false :
    (compute_l10n_ch_isr_number longPostalInvoice).isSome = true ∧
    ((compute_l10n_ch_isr_number longPostalInvoice).getD []).length = 28 := by decide

/-- Claim C1 amended: on every invoice on which the reference is computed
and whose ISR-B customer id does not exceed 26 characters, the
computed reference has exactly 27 characters. -/
theorem isr_number_width_27 (inv : Invoice) (r : List Char)
    (hpost : (_get_isrb_id_number inv).length ≤ 26)
    (h : compute_l10n_ch_isr_number inv = some r) :
    r.length = 27 := by
  have hid : (paddedIdNumber inv).length ≤ 26 := by
    unfold paddedIdNumber
    by_cases hne : _get_isrb_id_number inv ≠ []
    · rw [if_pos hne, zfill_length]
      omega
    · rw [if_neg hne]
      exact hpost
  unfold compute_l10n_ch_isr_number at h
  split at h
  · have hr : r = mod10r (isr_reference_body (paddedIdNumber inv) (invoiceRefDigits inv)) :=
      (Option.some.inj h).symm
    rw [hr, mod10r_length, isr_reference_body_length _ _ hid]
  · exact absurd h (by simp)

/-- Claim C1 witness: the reference of the witness invoice has 27
characters. -/
theorem isr_number_width_witness :
    ((compute_l10n_ch_isr_number chInvoice).getD []).length = 27 :=
  isr_number_width_27 chInvoice ((compute_l10n_ch_isr_number chInvoice).getD [])
    (by decide) (by decide)

/-- Claim C6 counterexample: with a 27 character id part and one invoice
digit the combined length exceeds 26, yet the number of dropped
characters is not the excess (only one digit is available) and the
body has 27 characters, not 26. -/
theorem reference_body_claim_false :
    26 < (List.replicate 27 '1' : List Char).length + "1".data.length ∧
    ("1".data.drop ((List.replicate 27 '1' : List Char).length + "1".data.length - 26)).length
        + ((List.replicate 27 '1' : List Char).length + "1".data.length - 26)
        ≠ "1".data.length ∧
    (isr_reference_body (List.replicate 27 '1') "1".data).length ≠ 26 := by decide

/-- Claim C6 amended: in the reference body builder, whenever the id part
has at most 26 characters and the combined length of the id part and
the invoice digits exceeds 26, exactly the excess is dropped from the
left of the invoice digits, the kept digits are a suffix of the
invoice digits, they are zero-filled to exactly 26 minus the id part
length, and the resulting body, id part followed by the filled digits,
has exactly 26 characters. -/
theorem reference_body_truncation (id_number invoice_ref : List Char)
    (hid : id_number.length ≤ 26)
    (hlen : 26 < id_number.length + invoice_ref.length) :
    (invoice_ref.drop (id_number.length + invoice_ref.length - 26)).length
        + (id_number.length + invoice_ref.length - 26) = invoice_ref.length
    ∧ List.IsSuffix
        (invoice_ref.drop (id_number.length + invoice_ref.length - 26)) invoice_ref
    ∧ (zfill (invoice_ref.drop (id_number.length + invoice_ref.length - 26))
        (26 - id_number.length)).length = 26 - id_number.length
    ∧ isr_reference_body id_number invoice_ref
        = id_number ++ zfill (invoice_ref.drop (id_number.length + invoice_ref.length - 26))
            (26 - id_number.length)
    ∧ (isr_reference_body id_number invoice_ref).length = 26 := by
  refine ⟨?_, ?_, ?_, rfl, isr_reference_body_length _ _ hid⟩
  · rw [List.length_drop]
    omega
  · exact List.drop_suffix _ _
  · rw [zfill_length, List.length_drop]
    omega

/-- Claim C6 witness: a 6 character id part with 25 invoice digits, total
31, drops 5 digits and yields a 26 character body. -/
theorem reference_body_truncation_witness :
    ("1234567890123456789012345".data.drop
        (("150001".data : List Char).length + "1234567890123456789012345".data.length - 26)).length
        + (("150001".data : List Char).length + "1234567890123456789012345".data.length - 26)
        = "1234567890123456789012345".data.length
    ∧ List.IsSuffix
        ("1234567890123456789012345".data.drop
          (("150001".data : List Char).length + "1234567890123456789012345".data.length - 26))
        "1234567890123456789012345".data
    ∧ (zfill ("1234567890123456789012345".data.drop
          (("150001".data : List Char).length + "1234567890123456789012345".data.length - 26))
        (26 - ("150001".data : List Char).length)).length
        = 26 - ("150001".data : List Char).length
    ∧ isr_reference_body "150001".data "1234567890123456789012345".data
        = "150001".data ++ zfill ("1234567890123456789012345".data.drop
            (("150001".data : List Char).length + "1234567890123456789012345".data.length - 26))
            (26 - ("150001".data : List Char).length)
    ∧ (isr_reference_body "150001".data "1234567890123456789012345".data).length = 26 :=
  reference_body_truncation "150001".data "1234567890123456789012345".data
    (by decide) (by decide)

/-- A non-empty computed subscription forces the invoice currency to
be EUR or CHF, because any other currency leaves the subscription
unset. -/
theorem currency_of_subscription (inv : Invoice)
    (h : compute_isr_subscription inv ≠ []) :
    inv.currency_name = "EUR".data ∨ inv.currency_name = "CHF".data := by
  by_cases he : inv.currency_name = "EUR".data
  · exact Or.inl he
  by_cases hc : inv.currency_name = "CHF".data
  · exact Or.inr hc
  exfalso
  apply h
  unfold compute_isr_subscription
  cases hb : inv.invoice_partner_bank_id with
  | none => rfl
  | some b => simp [he, hc]

/-- Invoice without a name: the reference is not computed, so the
optical line must stay empty. -/
def draftInvoice : Invoice :=
  { invoice_partner_bank_id := some chBank
    currency_name := "CHF".data
    name := []
    type := "out_invoice".data
    amount_residual_cents := 394975 }

/-- Claim C8 confirmed: when the reference, the subscription and the
currency are all present the optical line is the amount, a
greater-than sign, the reference, a plus sign, one mandatory space,
the subscription scanline and a final greater-than sign, and the
amount is well defined (no error); when any of the three is empty or
absent the optical line is the empty string, no error raised, and in
particular an empty reference yields the empty string. -/
theorem optical_line_assembly (inv : Invoice) :
    (((compute_l10n_ch_isr_number inv).getD [] ≠ [] →
      compute_isr_subscription inv ≠ [] →
      inv.currency_name ≠ [] →
      (_get_l10n_ch_isr_optical_amount inv).isSome = true ∧
      compute_l10n_ch_isr_optical_line inv
        = some ((_get_l10n_ch_isr_optical_amount inv).getD []
            ++ '>' :: (compute_l10n_ch_isr_number inv).getD []
            ++ '+' :: ' ' :: compute_isr_subscription inv ++ ['>']))
    ∧ ((compute_l10n_ch_isr_number inv).getD [] = [] ∨
        compute_isr_subscription inv = [] ∨ inv.currency_name = [] →
      compute_l10n_ch_isr_optical_line inv = some [])) := by
  constructor
  · intro hr hs hc
    have hcur := currency_of_subscription inv hs
    have hamt : (_get_l10n_ch_isr_optical_amount inv).isSome = true := by
      simp only [_get_l10n_ch_isr_optical_amount]
      rcases hcur with h | h <;> rw [h]
      · rw [if_neg (by decide), if_pos rfl]
        rfl
      · rw [if_pos rfl]
        rfl
    obtain ⟨a, ha⟩ := Option.isSome_iff_exists.mp hamt
    refine ⟨hamt, ?_⟩
    simp only [compute_l10n_ch_isr_optical_line]
    rw [if_pos ⟨hr, hs, hc⟩, ha]
    simp
  · intro habs
    simp only [compute_l10n_ch_isr_optical_line]
    rw [if_neg ?_]
    rintro ⟨h1, h2, h3⟩
    rcases habs with h | h | h <;> contradiction

/-- Claim C8 witness: the optical line of the witness invoice is assembled
from its parts, and the optical line of the same invoice without a
name, hence with an empty reference, is empty. -/
theorem optical_line_assembly_witness :
    ((_get_l10n_ch_isr_optical_amount chInvoice).isSome = true ∧
      compute_l10n_ch_isr_optical_line chInvoice
        = some ((_get_l10n_ch_isr_optical_amount chInvoice).getD []
            ++ '>' :: (compute_l10n_ch_isr_number chInvoice).getD []
            ++ '+' :: ' ' :: compute_isr_subscription chInvoice ++ ['>']))
    ∧ compute_l10n_ch_isr_optical_line draftInvoice = some [] :=
  ⟨(optical_line_assembly chInvoice).1 (by decide) (by decide) (by decide),
   (optical_line_assembly draftInvoice).2 (Or.inl (by decide))⟩

/-- Invoice violating every precondition of the print action. -/
def vendorBillInvoice : Invoice :=
  { invoice_partner_bank_id := none
    currency_name := "USD".data
    name := []
    type := "in_invoice".data
    amount_residual_cents := 0 }

/-- Claim C10 confirmed: on every invoice whose validity flag is false the
print action collects a non-empty list of blockers and raises the
aggregated validation failure; the fallback branch is unreachable and
the sent flag keeps its previous value. -/
theorem isr_print_validation (inv : Invoice) (sent : Bool)
    (h : compute_l10n_ch_isr_valid inv = false) :
    isr_print inv sent = (IsrPrintOutcome.validation (isrPrintErrors inv), sent)
    ∧ isrPrintErrors inv ≠ [] := by
  have herr : isrPrintErrors inv ≠ [] := by
    intro hnil
    unfold isrPrintErrors at hnil
    simp only [List.append_eq_nil] at hnil
    obtain ⟨⟨⟨h1, h2⟩, h3⟩, h4⟩ := hnil
    have ht : inv.type = "out_invoice".data := by
      by_contra hne
      rw [if_pos hne] at h2
      exact absurd h2 (by simp)
    have hcu : inv.currency_name = "EUR".data ∨ inv.currency_name = "CHF".data := by
      by_contra hne
      rw [if_pos hne] at h3
      exact absurd h3 (by simp)
    have hn : inv.name ≠ [] := by
      intro he
      rw [if_pos he] at h4
      exact absurd h4 (by simp)
    have hsub : compute_isr_subscription inv ≠ [] := by
      cases hb : inv.invoice_partner_bank_id with
      | none =>
          simp only [hb] at h1
          exact absurd h1 (by simp)
      | some b =>
          simp only [hb] at h1
          intro hs
          rw [if_pos hs] at h1
          exact absurd h1 (by simp)
    unfold compute_l10n_ch_isr_valid at h
    rcases hcu with hc | hc <;> simp [ht, hn, hsub, hc] at h
  refine ⟨?_, herr⟩
  unfold isr_print
  rw [if_neg (by simp [h]), if_neg herr]

/-- Claim C10 witness: the print action on an invoice violating every
precondition raises the aggregated failure and leaves the sent flag
false. -/
theorem isr_print_validation_witness :
    isr_print vendorBillInvoice false
      = (IsrPrintOutcome.validation (isrPrintErrors vendorBillInvoice), false)
    ∧ isrPrintErrors vendorBillInvoice ≠ [] :=
  isr_print_validation vendorBillInvoice false (by decide)

end L10nCh
